import Mathlib

/-!
Shallow embedding of the hello-webllm chat application core
(src/src/App.tsx): the engine lifecycle controller (prepareEngine),
the conversation replay driver (the finally block of prepareEngine),
the turn processor (processMsg), the submit handler (sendMsg), the
reset routine (clearStorage) and the local conversation store (the
persistence useEffect plus localStorage reads).

The component is a React function component.  Its per-render state is
modelled as an explicit record AppState; the two browser stores are
folded into that record (localStore for the single localStorage key
"hello-webllm.locals.messages-repo", sessionGuard for the single
sessionStorage key "hello-webllm.locals.loading-engine", which only
ever holds the string "true" or is absent).  External collaborators
(the model runtime and the clock / uuid generator) are oracles passed
as explicit arguments: the outcome of the awaited load call, the
outcome of the awaited completion call, and the fresh id / timestamp
used for a newly built message.

Closure semantics, which matter for the replay driver: in the source,
`const [engine, setEngine] = useState(null)` makes `engine` a
per-render constant.  An async handler created at render R closes over
the value `engine` had at render R; calling `setEngine` re-renders the
component with a new binding but does not change the binding the
running handler captured.  Each embedded handler therefore takes the
captured engine value as an explicit `capturedEngine` argument, while
the state setters (which are stable across renders) act on the current
AppState.
-/

namespace HelloWebllm

/-- Message role, from the union type in App.tsx. -/
inductive Role where
  | assistant
  | user
  | system
  | tool
deriving DecidableEq, Repr

/-- A single conversation turn, from the Message type in App.tsx. -/
structure Message where
  id : String
  role : Role
  content : String
  sentAt : String
deriving DecidableEq, Repr

/-- An entry of the prompt sent to the engine: the projection of a
Message to role and content (App.tsx line 104-105). -/
structure ChatMsg where
  role : Role
  content : String
deriving DecidableEq, Repr

/-- The message of one returned choice of the external completion
call.  Its content may be absent or null in the runtime's type, hence
Option String. -/
structure Choice where
  role : Role
  content : Option String
deriving DecidableEq, Repr

/-- Outcome of the awaited external completion call
(engine.chat.completions.create): either a resolved reply carrying its
list of choices, or a rejection. -/
inductive CompletionResult where
  | ok (choices : List Choice)
  | error
deriving DecidableEq, Repr

/-- Outcome of the awaited external load call (webllm.CreateMLCEngine):
either a resolved engine or a rejection. -/
inductive LoadResult where
  | ok
  | error
deriving DecidableEq, Repr

/-- Contents of the localStorage slot for the fixed key
"hello-webllm.locals.messages-repo": absent, present but not valid
JSON for a message list, or a well-formed serialized log.
Serialization is modelled as the identity on well-formed logs. -/
inductive StoredVal where
  | absent
  | malformed
  | val (log : List Message)
deriving DecidableEq, Repr

/-- The loaded model engine instance is opaque to this code: only its
presence is observable (its one operation is modelled by the
CompletionResult oracle). -/
structure EngineHandle where
deriving DecidableEq, Repr

/-- The component state of App plus the two browser stores.
engine, engineLoadingProgress, msgInput, messages, processingMsg are
the five useState cells in declaration order; localStore is the
localStorage slot under messagesRepoKey; sessionGuard is whether the
sessionStorage slot under loadEngineProgressKey holds "true". -/
structure AppState where
  engine : Option EngineHandle
  engineLoadingProgress : String
  msgInput : String
  messages : List Message
  processingMsg : Bool
  localStore : StoredVal
  sessionGuard : Bool
deriving DecidableEq, Repr

/-- The write half of the persistence useEffect (App.tsx lines 47-50):
`if (messages.length < 1) return; localStorage.setItem(key,
JSON.stringify(messages))`.  An empty log is never written. -/
def save (store : StoredVal) (log : List Message) : StoredVal :=
  if log.length < 1 then store else .val log

/-- Running the persistence useEffect on the current state. -/
def persistEffect (s : AppState) : AppState :=
  { s with localStore := save s.localStore s.messages }

/-- Reading and parsing the persisted log:
`JSON.parse(localStorage.getItem(key) || "[]")` (App.tsx lines 72-74).
An absent key parses as the empty list; malformed content makes
JSON.parse throw, returned here as none. -/
def load (store : StoredVal) : Option (List Message) :=
  match store with
  | .absent => some []
  | .malformed => none
  | .val l => some l

/-- The content fallback of App.tsx line 116:
`choice.message.content || "Unable to prduce response!"`.  In JS the
|| operator replaces both an absent/null content and the empty string
(both falsy) by the placeholder. -/
def fallbackContent (c : Option String) : String :=
  match c with
  | none => "Unable to prduce response!"
  | some s => if s = "" then "Unable to prduce response!" else s

/-- The prompt built by processMsg (App.tsx lines 101-106): a fixed
system instruction followed by the given log projected to role and
content. -/
def buildPrompt (msgList : List Message) : List ChatMsg :=
  ⟨Role.system, "You are a helpful AI assistant."⟩ ::
    msgList.map (fun m => ⟨m.role, m.content⟩)

/-- Result of one turn-processor or submit-handler invocation: the
state after the call returns, and the request that was submitted to
the engine during the call (none when no request reached the engine). -/
structure TurnResult where
  state : AppState
  submitted : Option (List ChatMsg)
deriving DecidableEq, Repr

/-- processMsg (App.tsx lines 97-128).  capturedEngine is the value of
the `engine` binding in the closure this processMsg belongs to;
completion is the outcome of the awaited completion call; newId and
nowIso are the fresh uuid and timestamp for the appended message;
msgList is the argument log; s is the component state at the time the
setters run.  Behaviour: if the captured engine is null, return at
once.  Otherwise set processingMsg, build the prompt from msgList and
submit it; on a resolved reply take choices[0] (an empty choices list
makes the member access throw, landing in the same catch as a
rejection) and append one new message to the current published list;
on any throw only log; in finally clear processingMsg.  The transient
processingMsg = true between entry and finally is collapsed: the
record returned is the state after the call returns. -/
def processMsg (capturedEngine : Option EngineHandle)
    (completion : CompletionResult) (newId nowIso : String)
    (msgList : List Message) (s : AppState) : TurnResult :=
  match capturedEngine with
  | none => { state := s, submitted := none }
  | some _ =>
    let prompt := buildPrompt msgList
    match completion with
    | .error => { state := { s with processingMsg := false }, submitted := some prompt }
    | .ok choices =>
      match choices with
      | [] => { state := { s with processingMsg := false }, submitted := some prompt }
      | choice :: _ =>
        let newMsg : Message :=
          { id := newId
            role := choice.role
            content := fallbackContent choice.content
            sentAt := nowIso }
        { state := { s with messages := s.messages ++ [newMsg], processingMsg := false }
          submitted := some prompt }

/-- Result of one prepareEngine invocation: the state after the call,
whether a load request reached the model runtime (whether
webllm.CreateMLCEngine was called), how many times the replay section
of the finally block ran (reading the persisted log and acting on it),
and the request the replay resubmitted to the engine, if any. -/
structure StartResult where
  state : AppState
  loadRequested : Bool
  replayRuns : Nat
  replaySubmitted : Option (List ChatMsg)
deriving DecidableEq, Repr

/-- The synchronous prefix of prepareEngine up to its first suspension
point (App.tsx lines 52-58): read the session guard; if it is set,
return (no load request is made, second component false); otherwise
set the guard and issue the load request (second component true). -/
def prepareEnter (s : AppState) : AppState × Bool :=
  if s.sessionGuard then (s, false)
  else ({ s with sessionGuard := true }, true)

/-- The continuation of prepareEngine after the awaited load call
settles (App.tsx lines 59-84).  capturedEngine is the `engine` binding
captured by this closure (passed on to the processMsg call inside the
finally block); loadResult is the outcome of the awaited
CreateMLCEngine call; progressText is the text of the last progress
callback, if any fired before the call settled.  On a resolved load:
store the engine and clear the progress string.  On a rejected load:
only log (the progress string keeps whatever the last callback wrote).
Then the finally block runs in both cases: clear the session guard,
read and parse the persisted log (a parse throw is swallowed by the
inner catch, leaving the published list untouched), publish the parsed
log, and if it is non-empty with a last entry of role user, invoke
processMsg on it. -/
def prepareResume (capturedEngine : Option EngineHandle)
    (loadResult : LoadResult) (progressText : Option String)
    (completion : CompletionResult) (newId nowIso : String)
    (s : AppState) : StartResult :=
  let s2 : AppState :=
    match loadResult with
    | .ok => { s with engine := some ⟨⟩, engineLoadingProgress := "" }
    | .error => { s with engineLoadingProgress := progressText.getD s.engineLoadingProgress }
  let s3 : AppState := { s2 with sessionGuard := false }
  match load s3.localStore with
  | none => { state := s3, loadRequested := true, replayRuns := 1, replaySubmitted := none }
  | some parsed =>
    let s4 : AppState := { s3 with messages := parsed }
    if 0 < parsed.length ∧ parsed.getLast?.map Message.role = some Role.user then
      let r := processMsg capturedEngine completion newId nowIso parsed s4
      { state := r.state, loadRequested := true, replayRuns := 1,
        replaySubmitted := r.submitted }
    else
      { state := s4, loadRequested := true, replayRuns := 1, replaySubmitted := none }

/-- prepareEngine (App.tsx lines 52-84) as one invocation: the guarded
entry followed, when the guard let it through, by the load call and
its continuation. -/
def prepareEngine (capturedEngine : Option EngineHandle)
    (loadResult : LoadResult) (progressText : Option String)
    (completion : CompletionResult) (newId nowIso : String)
    (s : AppState) : StartResult :=
  match prepareEnter s with
  | (s1, false) =>
      { state := s1, loadRequested := false, replayRuns := 0, replaySubmitted := none }
  | (_, true) =>
      prepareResume capturedEngine loadResult progressText completion newId nowIso
        { s with sessionGuard := true }

/-- prepareEngine as it is wired in the App: its only call site is the
onClick of the Start button, and that button is rendered only in the
`if (!engine)` branch, so the closure that runs has captured
engine = null.  (The later setEngine on the success path rebinds
`engine` for the next render but not for this closure.) -/
def appStart (loadResult : LoadResult) (progressText : Option String)
    (completion : CompletionResult) (newId nowIso : String)
    (s : AppState) : StartResult :=
  prepareEngine none loadResult progressText completion newId nowIso s

/-- clearStorage (App.tsx lines 86-95): ask the runtime to purge the
cached model data (an external effect with no bearing on this state),
remove the persisted log, remove the session guard, and reset every
state cell.  The persistence useEffect that follows sees an empty
message list and writes nothing. -/
def clearStorage (_s : AppState) : AppState :=
  { engine := none
    engineLoadingProgress := ""
    msgInput := ""
    messages := []
    processingMsg := false
    localStore := .absent
    sessionGuard := false }

/-- sendMsg (App.tsx lines 130-143).  capturedEngine is the `engine`
binding of the render whose form was submitted; the ids and timestamps
for the user message and the possible reply are oracle arguments.  If
the captured engine is null, return after preventDefault with nothing
changed.  Otherwise build the user message from the pending input,
clear the input, publish the extended list and hand it to processMsg. -/
def sendMsg (capturedEngine : Option EngineHandle)
    (completion : CompletionResult) (msgId msgIso replyId replyIso : String)
    (s : AppState) : TurnResult :=
  match capturedEngine with
  | none => { state := s, submitted := none }
  | some h =>
    let newMsg : Message :=
      { id := msgId, role := Role.user, content := s.msgInput, sentAt := msgIso }
    let newMsgList := s.messages ++ [newMsg]
    let s1 : AppState := { s with msgInput := "", messages := newMsgList }
    processMsg (some h) completion replyId replyIso newMsgList s1

/-- sendMsg as it is wired in the App: the form is part of the current
render, so the submitted handler's captured engine is the engine of
the current state. -/
def appSendMsg (completion : CompletionResult)
    (msgId msgIso replyId replyIso : String) (s : AppState) : TurnResult :=
  sendMsg s.engine completion msgId msgIso replyId replyIso s

/-- The component state right after module initialisation and mount:
the module-level sessionStorage.removeItem clears the guard, and the
five useState cells take their initial values (App.tsx lines 33-41).
The durable localStorage slot survives from the previous session and
is a parameter. -/
def initialState (store : StoredVal) : AppState :=
  { engine := none
    engineLoadingProgress := ""
    msgInput := ""
    messages := []
    processingMsg := false
    localStore := store
    sessionGuard := false }

/-- The oracle arguments of one turn-processor invocation. -/
structure TurnInv where
  capturedEngine : Option EngineHandle
  completion : CompletionResult
  newId : String
  nowIso : String
  msgList : List Message
deriving Repr

/-- A sequence of turn-processor invocations run one after another. -/
def runTurns (invs : List TurnInv) (s : AppState) : AppState :=
  match invs with
  | [] => s
  | inv :: rest =>
      runTurns rest
        (processMsg inv.capturedEngine inv.completion inv.newId inv.nowIso
          inv.msgList s).state

/-- Helper: processMsg never touches the session guard. -/
theorem processMsg_sessionGuard (e : Option EngineHandle) (c : CompletionResult)
    (i t : String) (ml : List Message) (s : AppState) :
    (processMsg e c i t ml s).state.sessionGuard = s.sessionGuard := by
  unfold processMsg
  cases e with
  | none => rfl
  | some h =>
    cases c with
    | error => rfl
    | ok choices =>
      cases choices with
      | nil => rfl
      | cons ch rest => rfl

/-- Helper: the finally-block continuation of prepareEngine runs its replay
section exactly once, on every load outcome. -/
theorem prepareResume_replayRuns (e : Option EngineHandle) (lr : LoadResult)
    (pt : Option String) (c : CompletionResult) (i t : String) (s : AppState) :
    (prepareResume e lr pt c i t s).replayRuns = 1 := by
  obtain ⟨en, pr, mi, ms, pm, ls, g⟩ := s
  cases lr <;> cases ls <;> simp [prepareResume, load] <;> split <;> simp

/-- Helper: the finally-block continuation of prepareEngine leaves the
session guard cleared, on every load outcome and every store content. -/
theorem prepareResume_guard (e : Option EngineHandle) (lr : LoadResult)
    (pt : Option String) (c : CompletionResult) (i t : String) (s : AppState) :
    (prepareResume e lr pt c i t s).state.sessionGuard = false := by
  obtain ⟨en, pr, mi, ms, pm, ls, g⟩ := s
  cases lr <;> cases ls <;> simp [prepareResume, load] <;> split <;>
    simp [processMsg_sessionGuard]

/-- Helper: one processMsg invocation only ever extends the published
message list at its end. -/
theorem processMsg_messages_extends (e : Option EngineHandle) (c : CompletionResult)
    (i t : String) (ml : List Message) (s : AppState) :
    ∃ suffix, (processMsg e c i t ml s).state.messages = s.messages ++ suffix := by
  unfold processMsg
  cases e with
  | none => exact ⟨[], by simp⟩
  | some h =>
    cases c with
    | error => exact ⟨[], by simp⟩
    | ok choices =>
      cases choices with
      | nil => exact ⟨[], by simp⟩
      | cons ch rest => exact ⟨_, rfl⟩

/-- The persisted log of the C1 scenario: one user turn awaiting a reply. -/
def c1Log : List Message :=
  [{ id := "m1", role := Role.user, content := "hi", sentAt := "t0" }]

/-- Running start() in a fresh session over that persisted log, with the
load resolving and the engine ready to answer with an assistant choice. -/
def c1Result : StartResult :=
  appStart .ok none (.ok [⟨Role.assistant, some "model reply"⟩]) "m2" "t1"
    (initialState (.val c1Log))

/-- C1: the claim says a completed start() over a persisted log ending in a
user turn appends exactly one assistant entry.  The code does not: on the
C1 scenario the load succeeds (the engine cell is set), the replay branch
is taken, yet nothing is submitted to the engine and the published and
persisted logs still hold only the user message — the processMsg called
from the finally block checks the `engine` binding captured when the Start
button's closure was created, and that binding is null there. -/
theorem c1_replay_resubmission_never_fires :
    c1Result.state.engine = some ⟨⟩ ∧
    (persistEffect c1Result.state).messages = c1Log ∧
    (persistEffect c1Result.state).localStore = StoredVal.val c1Log ∧
    c1Result.replaySubmitted = none := by decide

/-- The persisted log of the C2 counterexample: an answered conversation. -/
def c2Log : List Message :=
  [{ id := "a1", role := Role.assistant, content := "done", sentAt := "t0" }]

/-- C2 counterexample: the claim says the replay driver is not invoked when
the load fails.  Concretely: with a persisted log present and the load
rejecting, the replay driver still runs (replayRuns = 1) and publishes the
persisted log even though no engine was stored. -/
theorem c2_replay_driver_runs_on_load_failure :
    (appStart .error none .error "x" "t" (initialState (.val c2Log))).loadRequested = true ∧
    (appStart .error none .error "x" "t" (initialState (.val c2Log))).replayRuns = 1 ∧
    (appStart .error none .error "x" "t" (initialState (.val c2Log))).state.messages = c2Log ∧
    (appStart .error none .error "x" "t" (initialState (.val c2Log))).state.engine = none := by
  decide

/-- C2 (amended): the conversation replay driver runs exactly once per
start() invocation that passes the load guard — on load success and load
failure alike, because it lives in the finally block — and it runs after
the guard has been cleared. -/
theorem c2_replay_driver_runs_once_after_guard_clear (lr : LoadResult)
    (pt : Option String) (c : CompletionResult) (i t : String) (s : AppState)
    (h : s.sessionGuard = false) :
    (appStart lr pt c i t s).replayRuns = 1 ∧
    (appStart lr pt c i t s).state.sessionGuard = false := by
  constructor
  · simp [appStart, prepareEngine, prepareEnter, h, prepareResume_replayRuns]
  · simp [appStart, prepareEngine, prepareEnter, h, prepareResume_guard]

/-- Witness for C2 at a concrete fresh session. -/
theorem c2_replay_driver_runs_once_witness :
    (initialState StoredVal.absent).sessionGuard = false ∧
    ((appStart .ok none .error "i" "t" (initialState StoredVal.absent)).replayRuns = 1 ∧
      (appStart .ok none .error "i" "t" (initialState StoredVal.absent)).state.sessionGuard
        = false) :=
  ⟨rfl, c2_replay_driver_runs_once_after_guard_clear .ok none .error "i" "t"
    (initialState StoredVal.absent) rfl⟩

/-- C3: while a first start() is suspended at the load call (the guarded
entry has set the session flag and issued the one load request), a second
start() invocation is a no-op: it issues no load request and leaves the
state untouched, so at most one load is in flight. -/
theorem c3_second_start_during_load_is_noop (e : Option EngineHandle) (lr : LoadResult)
    (pt : Option String) (c : CompletionResult) (i t : String) (s : AppState)
    (h : s.sessionGuard = false) :
    (prepareEnter s).2 = true ∧
    (prepareEngine e lr pt c i t (prepareEnter s).1).loadRequested = false ∧
    (prepareEngine e lr pt c i t (prepareEnter s).1).state = (prepareEnter s).1 := by
  simp [prepareEnter, prepareEngine, h]

/-- Witness for C3 at a concrete fresh session. -/
theorem c3_second_start_witness :
    (initialState StoredVal.absent).sessionGuard = false ∧
    ((prepareEnter (initialState StoredVal.absent)).2 = true ∧
      (prepareEngine none .ok none .error "i" "t"
        (prepareEnter (initialState StoredVal.absent)).1).loadRequested = false ∧
      (prepareEngine none .ok none .error "i" "t"
        (prepareEnter (initialState StoredVal.absent)).1).state =
        (prepareEnter (initialState StoredVal.absent)).1) :=
  ⟨rfl, c3_second_start_during_load_is_noop none .ok none .error "i" "t"
    (initialState StoredVal.absent) rfl⟩

/-- C4: every start() invocation that actually runs the load (entered with
the guard clear) ends with the guard cleared, whether the load resolved or
rejected, and a subsequent start() is not blocked (its guarded entry
issues a load request again). -/
theorem c4_guard_cleared_on_every_exit (e : Option EngineHandle) (lr : LoadResult)
    (pt : Option String) (c : CompletionResult) (i t : String) (s : AppState)
    (h : s.sessionGuard = false) :
    (prepareEngine e lr pt c i t s).state.sessionGuard = false ∧
    (prepareEnter (prepareEngine e lr pt c i t s).state).2 = true := by
  have hg : (prepareEngine e lr pt c i t s).state.sessionGuard = false := by
    simp [prepareEngine, prepareEnter, h, prepareResume_guard]
  exact ⟨hg, by simp [prepareEnter, hg]⟩

/-- Witness for C4 at a concrete fresh session with a failing load. -/
theorem c4_guard_cleared_witness :
    (initialState StoredVal.absent).sessionGuard = false ∧
    ((prepareEngine none .error none .error "i" "t"
        (initialState StoredVal.absent)).state.sessionGuard = false ∧
      (prepareEnter (prepareEngine none .error none .error "i" "t"
        (initialState StoredVal.absent)).state).2 = true) :=
  ⟨rfl, c4_guard_cleared_on_every_exit none .error none .error "i" "t"
    (initialState StoredVal.absent) rfl⟩

/-- C5: when the external completion call rejects, the turn processor
changes nothing except clearing the busy flag: the published log is
exactly what it was before the call, and processingMsg is false after the
call returns. -/
theorem c5_completion_failure_leaves_log_unchanged (h : EngineHandle) (i t : String)
    (ml : List Message) (s : AppState) :
    (processMsg (some h) .error i t ml s).state = { s with processingMsg := false } ∧
    (processMsg (some h) .error i t ml s).state.messages = s.messages ∧
    (processMsg (some h) .error i t ml s).state.processingMsg = false :=
  ⟨rfl, rfl, rfl⟩

/-- C6: with an engine in hand, the request submitted is exactly the fixed
system instruction followed by the given log projected to role and
content, and on a resolved reply exactly one new message — built from the
first choice's role, its content run through the empty/absent fallback,
and the fresh id and timestamp — is appended after all prior entries,
which are kept unchanged and in order. -/
theorem c6_prompt_shape_and_single_append (h : EngineHandle) (choice : Choice)
    (rest : List Choice) (i t : String) (ml : List Message) (s : AppState) :
    (processMsg (some h) (.ok (choice :: rest)) i t ml s).submitted =
      some (⟨Role.system, "You are a helpful AI assistant."⟩ ::
        ml.map (fun m => ⟨m.role, m.content⟩)) ∧
    (processMsg (some h) (.ok (choice :: rest)) i t ml s).state.messages =
      s.messages ++ [⟨i, choice.role, fallbackContent choice.content, t⟩] ∧
    fallbackContent none = "Unable to prduce response!" ∧
    fallbackContent (some "") = "Unable to prduce response!" :=
  ⟨rfl, rfl, rfl, by simp [fallbackContent]⟩

/-- C7: the persistence effect writes nothing for an empty log, so a
previously persisted value under the storage key — in particular a
non-empty log — is left exactly as it was. -/
theorem c7_save_empty_never_writes (store : StoredVal) : save store [] = store := rfl

/-- C8: after clearStorage, from any prior state, the persisted slot is
absent and a subsequent load() parses to the empty sequence, the engine
handle is unset, the guard and progress string are cleared, the published
log is empty (and the persistence effect does not re-write it), the call
is idempotent, and a subsequent start() passes its guard and issues a
load. -/
theorem c8_reset_completeness_and_idempotence (s : AppState) :
    (clearStorage s).localStore = StoredVal.absent ∧
    load (clearStorage s).localStore = some [] ∧
    (clearStorage s).engine = none ∧
    (clearStorage s).sessionGuard = false ∧
    (clearStorage s).engineLoadingProgress = "" ∧
    (clearStorage s).messages = [] ∧
    persistEffect (clearStorage s) = clearStorage s ∧
    clearStorage (clearStorage s) = clearStorage s ∧
    (prepareEnter (clearStorage s)).2 = true :=
  ⟨rfl, rfl, rfl, rfl, rfl, rfl, rfl, rfl, rfl⟩

/-- C9: across any sequence of turn-processor invocations, the published
log only grows: the starting log is a prefix of the final one (every
previously published entry keeps its position and content) and its length
never decreases. -/
theorem c9_turn_processor_append_only (invs : List TurnInv) (s : AppState) :
    s.messages <+: (runTurns invs s).messages ∧
    s.messages.length ≤ (runTurns invs s).messages.length := by
  have hpre : s.messages <+: (runTurns invs s).messages := by
    induction invs generalizing s with
    | nil => exact ⟨[], by simp [runTurns]⟩
    | cons inv rest ih =>
      obtain ⟨suffix, hs⟩ := processMsg_messages_extends inv.capturedEngine inv.completion
        inv.newId inv.nowIso inv.msgList s
      have h1 : s.messages <+:
          (processMsg inv.capturedEngine inv.completion inv.newId inv.nowIso
            inv.msgList s).state.messages := ⟨suffix, hs.symm⟩
      exact h1.trans (ih _)
  exact ⟨hpre, hpre.length_le⟩

/-- C10: submitting the form while the engine handle is unset is a silent
no-op: the state is returned unchanged (no user message published, the
store field untouched, the pending input text kept) and nothing is
submitted to the engine. -/
theorem c10_submit_without_engine_is_noop (c : CompletionResult)
    (mid mt rid rt : String) (s : AppState) (h : s.engine = none) :
    appSendMsg c mid mt rid rt s = { state := s, submitted := none } := by
  simp [appSendMsg, sendMsg, h]

/-- Witness for C10 at a concrete fresh session. -/
theorem c10_submit_without_engine_witness :
    (initialState StoredVal.absent).engine = none ∧
    appSendMsg .error "i" "t" "j" "u" (initialState StoredVal.absent) =
      { state := initialState StoredVal.absent, submitted := none } :=
  ⟨rfl, c10_submit_without_engine_is_noop .error "i" "t" "j" "u"
    (initialState StoredVal.absent) rfl⟩

end HelloWebllm
